import Mathlib

/-!
Shallow embedding of the terraform-provider-openai repository.

The provider is a mapping layer: each CRUD operation of the two managed
resource types (assistant, assistant file), the read-only assistant data
source, and the provider configuration step translate a typed configuration
record into one or two remote API calls and copy the response back into
state.  Remote calls and the local file read are modelled as oracle inputs
(an environment record holding, for each call the operation would issue, the
result the remote side would return), and each operation is a pure function
from the current state / plan and that environment to an outcome plus the
list of remote calls it actually issued.
-/

namespace OpenAIProvider

/-- Terraform framework string value: a terraform string is either null
(`none`) or a known string.  `valueString` mirrors `types.String.ValueString`,
which returns the empty string for a null value. -/
def valueString (s : Option String) : String := s.getD ""

/-- Mirrors `types.Bool.ValueBool`, which returns `false` for a null value. -/
def valueBool (b : Option Bool) : Bool := b.getD false

/-- Mirrors `types.StringValue`: a known, non-null string value. -/
def stringValue (s : String) : Option String := some s

/-- Mirrors `types.BoolValue`: a known, non-null bool value. -/
def boolValue (b : Bool) : Option Bool := some b

/-- One diagnostic, as produced by `Diagnostics.AddError(summary, detail)`. -/
structure Diag where
  summary : String
  detail : String
deriving DecidableEq, Repr

/-- Outcome of one lifecycle operation.  `panic` models a Go runtime panic
(nil-pointer dereference); `err` models returning after adding a diagnostic,
with the stored state left untouched; `ok` models reaching `resp.State.Set`
with the given record. -/
inductive Outcome (α : Type) where
  | panic : Outcome α
  | err : Diag → Outcome α
  | ok : α → Outcome α
deriving DecidableEq, Repr

/-- `openai.AssistantToolTypeRetrieval`. -/
def AssistantToolTypeRetrieval : String := "retrieval"

/-- `openai.AssistantToolTypeCodeInterpreter`. -/
def AssistantToolTypeCodeInterpreter : String := "code_interpreter"

/-- `openai.AssistantTool`.  The `function` field abstracts the
`*FunctionDefinition` pointer, which Go struct equality (used by
`slices.Contains`) compares by pointer identity; `none` is the nil pointer.
The tag literals `AssistantTool{Type: ...}` built by the provider always have
a nil `function`. -/
structure AssistantTool where
  type : String
  function : Option Nat := none
deriving DecidableEq, Repr

/-- The retrieval capability tag as constructed by the provider. -/
def retrievalTool : AssistantTool := { type := AssistantToolTypeRetrieval }

/-- The code-interpreter capability tag as constructed by the provider. -/
def codeInterpreterTool : AssistantTool := { type := AssistantToolTypeCodeInterpreter }

/-- The fields of `openai.Assistant` the provider reads.  `name`,
`instructions` and `description` are `*string` in the response and hence
optional. -/
structure Assistant where
  id : String
  name : Option String
  model : String
  instructions : Option String
  description : Option String
  tools : List AssistantTool
deriving DecidableEq, Repr

/-- The fields of `openai.File` the provider reads. -/
structure OpenAIFile where
  id : String
deriving DecidableEq, Repr

/-- The fields of `openai.AssistantFile` the provider reads. -/
structure AssistantFileResponse where
  id : String
  assistantID : String
deriving DecidableEq, Repr

/-- `openai.AssistantRequest` as the provider builds it. -/
structure AssistantRequest where
  name : Option String
  description : Option String
  model : String
  instructions : Option String
  tools : List AssistantTool
deriving DecidableEq, Repr

/-- One outbound remote API call, with its arguments. -/
inductive RemoteCall where
  | createFileBytes (name : String) (bytes : List UInt8) (purpose : String)
  | createAssistantFile (assistantID : String) (fileID : String)
  | deleteAssistantFile (assistantID : String) (fileID : String)
  | deleteFile (fileID : String)
  | modifyAssistant (assistantID : String) (request : AssistantRequest)
  | retrieveAssistant (assistantID : String)
deriving DecidableEq, Repr

/-! ### Provider configuration (`openaiProvider.Configure`) -/

/-- The attribute error added when no non-empty api key is resolved. -/
def missingApiKeyDiag : Diag :=
  { summary := "Missing OpenAI API key"
    detail := "The provider cannot create the OpenAI API client as there is a missing or empty value for the OpenAI API key. Set the api_key value in the configuration or use the OPENAI_API_KEY environment variable. If either is already set, ensure the value is not empty." }

/-- `openaiProvider.Configure`: `configApiKey` is the declared `api_key`
attribute (`none` when null), `envApiKey` the value of `os.Getenv`, which is
the empty string when the variable is unset.  On success the resolved key
(the one the client is constructed with) is returned. -/
def openaiProviderConfigure (configApiKey : Option String) (envApiKey : String) :
    Outcome String :=
  let apiKey := envApiKey
  let apiKey := if configApiKey.isSome then valueString configApiKey else apiKey
  if apiKey = "" then .err missingApiKeyDiag else .ok apiKey

/-! ### Assistant resource and data source -/

/-- `assistantResourceModel`: each terraform field is null (`none`) or known. -/
structure AssistantResourceModel where
  id : Option String
  name : Option String
  description : Option String
  model : Option String
  instructions : Option String
  enableRetrieval : Option Bool
  enableCodeInterpreter : Option Bool
  lastUpdated : Option String
deriving DecidableEq, Repr

/-- `assistantDataSourceModel`. -/
structure AssistantDataSourceModel where
  id : Option String
  name : Option String
  description : Option String
  model : Option String
  instructions : Option String
  enableRetrieval : Option Bool
  enableCodeInterpreter : Option Bool
deriving DecidableEq, Repr

/-- `assistantResource.Read`.  `retrieveAssistant` is the result the remote
`RetrieveAssistant` call returns.  On a remote error a diagnostic is added
and the stored state is untouched.  On success the Go code dereferences
`*assistant.Name` and `*assistant.Instructions` unconditionally, so a nil
`name` or `instructions` panics before any state is written; `description`
is copied only when non-nil, otherwise the stored value is kept. -/
def assistantResourceRead (state : AssistantResourceModel)
    (retrieveAssistant : Except String Assistant) : Outcome AssistantResourceModel :=
  match retrieveAssistant with
  | .error e =>
      .err { summary := "Error Reading OpenAI assistant"
             detail := "Could not read OpenAI assistant ID " ++ valueString state.id ++ ": " ++ e }
  | .ok assistant =>
      match assistant.name, assistant.instructions with
      | some name, some instructions =>
          let state := { state with
            id := stringValue assistant.id
            name := stringValue name
            model := stringValue assistant.model
            instructions := stringValue instructions
            enableRetrieval :=
              boolValue (assistant.tools.contains { type := AssistantToolTypeRetrieval })
            enableCodeInterpreter :=
              boolValue (assistant.tools.contains { type := AssistantToolTypeCodeInterpreter }) }
          let state :=
            match assistant.description with
            | some d => { state with description := stringValue d }
            | none => state
          .ok state
      | _, _ => .panic

/-- `assistantDataSource.Read`: same projection as the resource Read, on the
data-source model (no `last_updated`), with its own error message. -/
def assistantDataSourceRead (data : AssistantDataSourceModel)
    (retrieveAssistant : Except String Assistant) : Outcome AssistantDataSourceModel :=
  match retrieveAssistant with
  | .error e =>
      .err { summary := "Unable to read OpenAI assistant", detail := e }
  | .ok assistant =>
      match assistant.name, assistant.instructions with
      | some name, some instructions =>
          let data := { data with
            id := stringValue assistant.id
            name := stringValue name
            model := stringValue assistant.model
            instructions := stringValue instructions
            enableRetrieval :=
              boolValue (assistant.tools.contains { type := AssistantToolTypeRetrieval })
            enableCodeInterpreter :=
              boolValue (assistant.tools.contains { type := AssistantToolTypeCodeInterpreter }) }
          let data :=
            match assistant.description with
            | some d => { data with description := stringValue d }
            | none => data
          .ok data
      | _, _ => .panic

/-- The request payload built identically by `assistantResource.Create` and
`assistantResource.Update`: pointer fields pass the nullable plan values
through, and the tool list appends the retrieval tag iff `enable_retrieval`
and the code-interpreter tag iff `enable_code_interpreter`. -/
def assistantRequestFromPlan (plan : AssistantResourceModel) : AssistantRequest :=
  let tools : List AssistantTool := []
  let tools := if valueBool plan.enableRetrieval
    then tools ++ [{ type := AssistantToolTypeRetrieval }] else tools
  let tools := if valueBool plan.enableCodeInterpreter
    then tools ++ [{ type := AssistantToolTypeCodeInterpreter }] else tools
  { name := plan.name
    description := plan.description
    model := valueString plan.model
    instructions := plan.instructions
    tools := tools }

/-- Oracle results for the two remote calls of `assistantResource.Update`,
plus the formatted current time used to stamp `last_updated`. -/
structure AssistantUpdateEnv where
  modifyAssistant : Except String Assistant
  retrieveAssistant : Except String Assistant
  now : String
deriving Repr

/-- `assistantResource.Update`: modify, then a confirmation retrieve whose
result is discarded, then stamp `last_updated` and store the plan. -/
def assistantResourceUpdate (plan : AssistantResourceModel) (env : AssistantUpdateEnv) :
    Outcome AssistantResourceModel × List RemoteCall :=
  let assistantRequest := assistantRequestFromPlan plan
  let modifyCall := RemoteCall.modifyAssistant (valueString plan.id) assistantRequest
  match env.modifyAssistant with
  | .error e =>
      (.err { summary := "Error Updating OpenAI Assistant"
              detail := "Could not update assistant, unexpected error: " ++ e },
       [modifyCall])
  | .ok _ =>
      let retrieveCall := RemoteCall.retrieveAssistant (valueString plan.id)
      match env.retrieveAssistant with
      | .error e =>
          (.err { summary := "Error Reading OpenAI Assistant"
                  detail := "Could not read OpenAI assistant ID " ++ valueString plan.id ++ ": " ++ e },
           [modifyCall, retrieveCall])
      | .ok _ =>
          (.ok { plan with lastUpdated := stringValue env.now },
           [modifyCall, retrieveCall])

/-! ### Assistant-file resource -/

/-- `assistantFileResourceModel`. -/
structure AssistantFileResourceModel where
  id : Option String
  filename : Option String
  assistantID : Option String
  lastUpdated : Option String
deriving DecidableEq, Repr

/-- Unix `filepath.Base`: empty path gives ".", trailing slashes are
stripped, an all-slash path gives "/", otherwise the last path element. -/
def filepathBase (p : String) : String :=
  if p = "" then "."
  else
    let trimmed := ((p.toList.reverse.dropWhile (fun c => c = '/')).reverse)
    if trimmed = [] then "/"
    else String.mk ((trimmed.reverse.takeWhile (fun c => c ≠ '/')).reverse)

/-- Oracle results for `assistantFileResource.Create`: the local file read
(`os.ReadFile`), the upload (`CreateFileBytes`), the attach
(`CreateAssistantFile`), and the formatted current time. -/
structure AssistantFileCreateEnv where
  readFile : Except String (List UInt8)
  createFileBytes : Except String OpenAIFile
  createAssistantFile : Except String AssistantFileResponse
  now : String
deriving Repr

/-- `assistantFileResource.Create`: read the local file (unreadable file or
empty content abort before any remote call), upload the bytes under purpose
"assistants" with the base filename, attach the uploaded file id to the
assistant, then store the plan with the uploaded file's id and a fresh
timestamp.  The second component lists the remote calls issued, in order. -/
def assistantFileCreate (plan : AssistantFileResourceModel)
    (env : AssistantFileCreateEnv) :
    Outcome AssistantFileResourceModel × List RemoteCall :=
  match env.readFile with
  | .error e =>
      (.err { summary := "Error reading file content"
              detail := "Could not create assistant file, unexpected error: " ++ e },
       [])
  | .ok fileContent =>
      if fileContent.length = 0 then
        (.err { summary := "File is empty"
                detail := "Could not create assistant file, the file has no content." },
         [])
      else
        let name := filepathBase (valueString plan.filename)
        let uploadCall := RemoteCall.createFileBytes name fileContent "assistants"
        match env.createFileBytes with
        | .error e =>
            (.err { summary := "Error creating file"
                    detail := "Could not create assistant file, unexpected error: " ++ e },
             [uploadCall])
        | .ok file =>
            let attachCall :=
              RemoteCall.createAssistantFile (valueString plan.assistantID) file.id
            match env.createAssistantFile with
            | .error e =>
                (.err { summary := "Error creating assistant file"
                        detail := "Could not create assistant file, unexpected error: " ++ e },
                 [uploadCall, attachCall])
            | .ok _ =>
                (.ok { plan with id := stringValue file.id, lastUpdated := stringValue env.now },
                 [uploadCall, attachCall])

/-- Oracle results for the two remote calls of `assistantFileResource.Read`. -/
structure AssistantFileReadEnv where
  getFile : Except String OpenAIFile
  retrieveAssistantFile : Except String AssistantFileResponse
deriving Repr

/-- `assistantFileResource.Read`: confirm the underlying file exists (result
discarded), then retrieve the attachment and overwrite only `id` and
`assistant_id` from it; `filename` and `last_updated` keep their stored
values.  Any remote error leaves the stored state untouched. -/
def assistantFileRead (state : AssistantFileResourceModel)
    (env : AssistantFileReadEnv) : Outcome AssistantFileResourceModel :=
  match env.getFile with
  | .error e =>
      .err { summary := "Error Reading OpenAI file"
             detail := "Could not read OpenAI file ID " ++ valueString state.id ++ ": " ++ e }
  | .ok _ =>
      match env.retrieveAssistantFile with
      | .error e =>
          .err { summary := "Error Reading OpenAI assistant file"
                 detail := "Could not read OpenAI assistant file ID " ++ valueString state.id ++ ": " ++ e }
      | .ok assistantFile =>
          .ok { state with
            id := stringValue assistantFile.id
            assistantID := stringValue assistantFile.assistantID }

/-- Oracle results for the two remote calls of `assistantFileResource.Delete`. -/
structure AssistantFileDeleteEnv where
  deleteAssistantFile : Except String Unit
  deleteFile : Except String Unit
deriving Repr

/-- `assistantFileResource.Delete`: detach the file from the assistant, then
delete the underlying file; an error from either call is surfaced and aborts,
and no further call is made after a failure. -/
def assistantFileDelete (state : AssistantFileResourceModel)
    (env : AssistantFileDeleteEnv) : Outcome Unit × List RemoteCall :=
  let detachCall :=
    RemoteCall.deleteAssistantFile (valueString state.assistantID) (valueString state.id)
  match env.deleteAssistantFile with
  | .error e =>
      (.err { summary := "Error Deleting OpenAI assistant file"
              detail := "Could not delete assistant file, unexpected error: " ++ e },
       [detachCall])
  | .ok _ =>
      let delCall := RemoteCall.deleteFile (valueString state.id)
      match env.deleteFile with
      | .error e =>
          (.err { summary := "Error Deleting OpenAI file"
                  detail := "Could not delete assistant file, unexpected error: " ++ e },
           [detachCall, delCall])
      | .ok _ => (.ok (), [detachCall, delCall])

/-! ### Schema declarations -/

/-- The plan modifiers used by the two resource schemas. -/
inductive PlanModifier where
  | requiresReplace
  | useStateForUnknown
deriving DecidableEq, Repr

/-- One attribute declaration of a resource schema. -/
structure AttributeSchema where
  required : Bool := false
  optional : Bool := false
  computed : Bool := false
  planModifiers : List PlanModifier := []
  defaultBool : Option Bool := none
deriving DecidableEq, Repr

/-- `assistantFileResource.Schema`, attribute by attribute. -/
def assistantFileResourceSchema : List (String × AttributeSchema) :=
  [("id", { computed := true, planModifiers := [.useStateForUnknown] }),
   ("filename", { required := true, planModifiers := [.requiresReplace] }),
   ("assistant_id", { required := true, planModifiers := [.requiresReplace] }),
   ("last_updated", { computed := true })]

/-- `assistantResource.Schema`, attribute by attribute. -/
def assistantResourceSchema : List (String × AttributeSchema) :=
  [("id", { computed := true, planModifiers := [.useStateForUnknown] }),
   ("name", { required := true }),
   ("description", { optional := true }),
   ("model", { required := true }),
   ("instructions", { required := true }),
   ("enable_retrieval", { optional := true, computed := true, defaultBool := some false }),
   ("enable_code_interpreter", { optional := true, computed := true, defaultBool := some false }),
   ("last_updated", { computed := true })]

/-! ### Concrete fixtures used by individual claims -/

/-- A remote assistant response that disagrees with the plan of the
concrete Update below on every updatable attribute. -/
def c9RemoteAssistant : Assistant :=
  { id := "asst_1", name := some "remote name", model := "gpt-3",
    instructions := some "remote instructions", description := none, tools := [] }

/-- A stored assistant state with a non-empty description. -/
def c5State1 : AssistantResourceModel :=
  { id := some "asst_1", name := some "old name",
    description := some "old description", model := some "gpt-4",
    instructions := some "old instructions", enableRetrieval := some false,
    enableCodeInterpreter := some false, lastUpdated := some "t0" }

/-- The same stored assistant state with a different description. -/
def c5State2 : AssistantResourceModel :=
  { c5State1 with description := some "another description" }

/-- A successful retrieve response whose description is absent (nil). -/
def c5Assistant : Assistant :=
  { id := "asst_1", name := some "new name", model := "gpt-4",
    instructions := some "new instructions", description := none, tools := [] }

/-- A retrieve response with the given tool-tag list and all pointer fields
present. -/
def c1Assistant (tools : List AssistantTool) : Assistant :=
  { id := "asst_1", name := some "n", model := "m", instructions := some "i",
    description := none, tools := tools }

/-- A blank data-source record holding only the queried id. -/
def c1Blank : AssistantDataSourceModel :=
  { id := some "asst_1", name := none, description := none, model := none,
    instructions := none, enableRetrieval := none, enableCodeInterpreter := none }

/-- The pair of capability flags the assistant lookup stores for a retrieve
response with the given tool-tag list (`none` if the lookup does not
succeed). -/
def c1ReadFlags (tools : List AssistantTool) : Option (Option Bool × Option Bool) :=
  match assistantDataSourceRead c1Blank (.ok (c1Assistant tools)) with
  | .ok d => some (d.enableRetrieval, d.enableCodeInterpreter)
  | _ => none

/-! ### Helper lemmas -/

/-- `List.contains` respects permutation of the list: membership testing does
not depend on the order of the tool tags. -/
theorem contains_eq_of_perm {α} [DecidableEq α] {l l2 : List α} (p : l.Perm l2)
    (a : α) : l.contains a = l2.contains a := by
  rw [Bool.eq_iff_iff]
  simp [List.contains, p.mem_iff]

/-! ### C2: credential resolution in provider Configure -/

/-- C2 counterexample: with a declared api key that is present but empty and
environment value "env-secret", the claim says Configure succeeds with the
environment value; the code uses the declared (empty) value and fails with
the missing-key configuration error. -/
theorem c2_declared_empty_key_counterexample :
    openaiProviderConfigure (some "") "env-secret" = .err missingApiKeyDiag ∧
    openaiProviderConfigure (some "") "env-secret" ≠ .ok "env-secret" := by
  exact ⟨rfl, by decide⟩

/-- C2 (amended): Configure resolves the credential by presence, not
non-emptiness, of the declared value: a present (non-null) api key is used
even when empty, overriding the environment; a null api key falls back to
the environment variable; Configure fails with the missing-key configuration
error exactly when the value so resolved is empty — in particular a declared
empty key fails regardless of the environment. -/
theorem c2_configure_precedence :
    (∀ (v env : String), v ≠ "" → openaiProviderConfigure (some v) env = .ok v) ∧
    (∀ env : String, env ≠ "" → openaiProviderConfigure none env = .ok env) ∧
    (∀ env : String, openaiProviderConfigure (some "") env = .err missingApiKeyDiag) ∧
    openaiProviderConfigure none "" = .err missingApiKeyDiag := by
  refine ⟨?_, ?_, fun env => rfl, rfl⟩
  · intro v env hv
    simp [openaiProviderConfigure, valueString, hv]
  · intro env henv
    simp [openaiProviderConfigure, valueString, henv]

/-- C2 witness: a non-empty declared key is used; with no declared key the
environment value is used. -/
theorem c2_configure_precedence_witness :
    openaiProviderConfigure (some "sk-abc") "sk-env" = .ok "sk-abc" ∧
    openaiProviderConfigure none "sk-env" = .ok "sk-env" :=
  ⟨c2_configure_precedence.1 "sk-abc" "sk-env" (by decide),
   c2_configure_precedence.2.1 "sk-env" (by decide)⟩

/-! ### C3, C4: assistant-file Create -/

/-- C3: an assistant-file Create whose local file read succeeds with
zero-length content fails with the empty-file validation error, issues no
remote call at all, and stores no state (the outcome is an error, never
`ok`). -/
theorem c3_empty_file_no_remote_calls (plan : AssistantFileResourceModel)
    (env : AssistantFileCreateEnv) (content : List UInt8)
    (hread : env.readFile = .ok content) (hlen : content.length = 0) :
    assistantFileCreate plan env =
      (.err { summary := "File is empty"
              detail := "Could not create assistant file, the file has no content." },
       []) := by
  simp [assistantFileCreate, hread, hlen]

/-- C3 witness: a concrete plan and environment with an empty file. -/
theorem c3_empty_file_no_remote_calls_witness :
    assistantFileCreate
      { id := none, filename := some "/tmp/doc.txt", assistantID := some "asst_1",
        lastUpdated := none }
      { readFile := .ok [], createFileBytes := .ok { id := "file_1" },
        createAssistantFile := .ok { id := "file_1", assistantID := "asst_1" },
        now := "t0" } =
      (.err { summary := "File is empty"
              detail := "Could not create assistant file, the file has no content." },
       []) :=
  c3_empty_file_no_remote_calls _ _ [] rfl rfl

/-- C4: when the upload succeeds but the attach call fails, Create fails with
the remote attach error and never reaches the state-set step (the outcome is
an error, so no identifier is stored), while the issued-call list shows the
upload side-effect did occur and no rollback call follows it. -/
theorem c4_attach_failure_no_state (plan : AssistantFileResourceModel)
    (env : AssistantFileCreateEnv) (content : List UInt8) (file : OpenAIFile)
    (e : String)
    (hread : env.readFile = .ok content) (hlen : content.length ≠ 0)
    (hupload : env.createFileBytes = .ok file)
    (hattach : env.createAssistantFile = .error e) :
    assistantFileCreate plan env =
      (.err { summary := "Error creating assistant file"
              detail := "Could not create assistant file, unexpected error: " ++ e },
       [RemoteCall.createFileBytes (filepathBase (valueString plan.filename))
          content "assistants",
        RemoteCall.createAssistantFile (valueString plan.assistantID) file.id]) := by
  simp [assistantFileCreate, hread, hlen, hupload, hattach]

/-- C4 witness: a concrete plan and environment where the attach call
fails after a successful upload. -/
theorem c4_attach_failure_no_state_witness :
    assistantFileCreate
      { id := none, filename := some "/tmp/doc.txt", assistantID := some "asst_1",
        lastUpdated := none }
      { readFile := .ok [65], createFileBytes := .ok { id := "file_1" },
        createAssistantFile := .error "boom", now := "t0" } =
      (.err { summary := "Error creating assistant file"
              detail := "Could not create assistant file, unexpected error: boom" },
       [RemoteCall.createFileBytes "doc.txt" [65] "assistants",
        RemoteCall.createAssistantFile "asst_1" "file_1"]) :=
  c4_attach_failure_no_state _ _ [65] { id := "file_1" } "boom" rfl (by decide) rfl rfl

/-! ### C6: assistant-file Delete -/

/-- C6: Delete attempts exactly two remote calls in order — detach first,
then delete of the underlying file.  A detach error is surfaced and the
delete call is never issued; a delete error after a successful detach is
surfaced with no compensating call; when both succeed exactly the two calls
were issued. -/
theorem c6_delete_detach_then_delete (state : AssistantFileResourceModel)
    (env : AssistantFileDeleteEnv) :
    (∀ e, env.deleteAssistantFile = .error e →
      assistantFileDelete state env =
        (.err { summary := "Error Deleting OpenAI assistant file"
                detail := "Could not delete assistant file, unexpected error: " ++ e },
         [RemoteCall.deleteAssistantFile (valueString state.assistantID)
            (valueString state.id)])) ∧
    (∀ e, env.deleteAssistantFile = .ok () → env.deleteFile = .error e →
      assistantFileDelete state env =
        (.err { summary := "Error Deleting OpenAI file"
                detail := "Could not delete assistant file, unexpected error: " ++ e },
         [RemoteCall.deleteAssistantFile (valueString state.assistantID)
            (valueString state.id),
          RemoteCall.deleteFile (valueString state.id)])) ∧
    (env.deleteAssistantFile = .ok () → env.deleteFile = .ok () →
      assistantFileDelete state env =
        (.ok (),
         [RemoteCall.deleteAssistantFile (valueString state.assistantID)
            (valueString state.id),
          RemoteCall.deleteFile (valueString state.id)])) := by
  refine ⟨?_, ?_, ?_⟩
  · intro e hdetach
    simp [assistantFileDelete, hdetach]
  · intro e hdetach hdel
    simp [assistantFileDelete, hdetach, hdel]
  · intro hdetach hdel
    simp [assistantFileDelete, hdetach, hdel]

/-- C6 witness: with a successful detach and a failing file delete, the
surfaced error is the delete error and the call list is exactly detach then
delete, with no compensating call. -/
theorem c6_delete_detach_then_delete_witness :
    assistantFileDelete
      { id := some "file_1", filename := some "/tmp/doc.txt",
        assistantID := some "asst_1", lastUpdated := some "t0" }
      { deleteAssistantFile := .ok (), deleteFile := .error "boom" } =
      (.err { summary := "Error Deleting OpenAI file"
              detail := "Could not delete assistant file, unexpected error: boom" },
       [RemoteCall.deleteAssistantFile "asst_1" "file_1",
        RemoteCall.deleteFile "file_1"]) :=
  (c6_delete_detach_then_delete _ _).2.1 "boom" rfl rfl

/-! ### C7: replace-triggers in the schemas -/

/-- C7: in the assistant-file schema exactly the filename and assistant-id
attributes carry the requires-replace plan modifier, while no attribute of
the assistant schema carries it (every assistant attribute is updatable in
place). -/
theorem c7_replace_triggers :
    ((assistantFileResourceSchema.filter
        (fun attr => attr.2.planModifiers.contains PlanModifier.requiresReplace)).map
      Prod.fst) = ["filename", "assistant_id"] ∧
    (assistantResourceSchema.filter
        (fun attr => attr.2.planModifiers.contains PlanModifier.requiresReplace)) = [] := by
  exact ⟨rfl, rfl⟩

/-! ### C9: assistant Update stores plan plus timestamp -/

/-- C9: after a successful Update the stored state is exactly the planned
values with a freshly stamped last-updated field; the confirmation retrieve
call is issued (second element of the call list) but its payload is
discarded — the stored outcome does not depend on the retrieved assistant. -/
theorem c9_update_state_from_plan (plan : AssistantResourceModel)
    (env : AssistantUpdateEnv) (m a : Assistant)
    (hmod : env.modifyAssistant = .ok m) (hret : env.retrieveAssistant = .ok a) :
    (assistantResourceUpdate plan env).1 =
      .ok { plan with lastUpdated := stringValue env.now } ∧
    (assistantResourceUpdate plan env).2 =
      [RemoteCall.modifyAssistant (valueString plan.id) (assistantRequestFromPlan plan),
       RemoteCall.retrieveAssistant (valueString plan.id)] ∧
    (∀ a2 : Assistant,
      (assistantResourceUpdate plan { env with retrieveAssistant := .ok a2 }).1 =
        (assistantResourceUpdate plan env).1) := by
  refine ⟨?_, ?_, ?_⟩
  · simp [assistantResourceUpdate, hmod, hret]
  · simp [assistantResourceUpdate, hmod, hret]
  · intro a2
    simp [assistantResourceUpdate, hmod, hret]

/-- C9 witness: a concrete plan and environment in which the retrieved
assistant disagrees with the plan, yet the stored state is the plan plus the
fresh timestamp. -/
theorem c9_update_state_from_plan_witness :
    (assistantResourceUpdate
      { id := some "asst_1", name := some "planned name", description := none,
        model := some "gpt-4", instructions := some "planned instructions",
        enableRetrieval := some true, enableCodeInterpreter := some false,
        lastUpdated := some "t0" }
      { modifyAssistant := .ok c9RemoteAssistant,
        retrieveAssistant := .ok c9RemoteAssistant,
        now := "t1" }).1 =
      .ok { id := some "asst_1", name := some "planned name", description := none,
            model := some "gpt-4", instructions := some "planned instructions",
            enableRetrieval := some true, enableCodeInterpreter := some false,
            lastUpdated := some "t1" } :=
  (c9_update_state_from_plan _ _ c9RemoteAssistant c9RemoteAssistant rfl rfl).1

/-! ### C10: assistant-file Read frame -/

/-- C10: a successful assistant-file Read overwrites only the id and
assistant-id fields, taking both from the attachment response, while
filename and last-updated keep their stored values; an error from either
remote call surfaces a diagnostic and writes no state. -/
theorem c10_file_read_frame (state : AssistantFileResourceModel)
    (env : AssistantFileReadEnv) :
    (∀ (f : OpenAIFile) (af : AssistantFileResponse),
      env.getFile = .ok f → env.retrieveAssistantFile = .ok af →
      assistantFileRead state env =
        .ok { state with
              id := stringValue af.id
              assistantID := stringValue af.assistantID }) ∧
    (∀ e, env.getFile = .error e →
      assistantFileRead state env =
        .err { summary := "Error Reading OpenAI file"
               detail := "Could not read OpenAI file ID " ++ valueString state.id ++ ": " ++ e }) ∧
    (∀ (f : OpenAIFile) (e : String),
      env.getFile = .ok f → env.retrieveAssistantFile = .error e →
      assistantFileRead state env =
        .err { summary := "Error Reading OpenAI assistant file"
               detail := "Could not read OpenAI assistant file ID " ++ valueString state.id ++ ": " ++ e }) := by
  refine ⟨?_, ?_, ?_⟩
  · intro f af hget hret
    simp [assistantFileRead, hget, hret]
  · intro e hget
    simp [assistantFileRead, hget]
  · intro f e hget hret
    simp [assistantFileRead, hget, hret]

/-- C10 witness: a concrete Read in which the attachment response carries
different id and assistant-id values; only those two fields change. -/
theorem c10_file_read_frame_witness :
    assistantFileRead
      { id := some "file_1", filename := some "/tmp/doc.txt",
        assistantID := some "asst_1", lastUpdated := some "t0" }
      { getFile := .ok { id := "file_2" },
        retrieveAssistantFile := .ok { id := "file_2", assistantID := "asst_2" } } =
      .ok { id := some "file_2", filename := some "/tmp/doc.txt",
            assistantID := some "asst_2", lastUpdated := some "t0" } :=
  (c10_file_read_frame _ _).1 { id := "file_2" }
    { id := "file_2", assistantID := "asst_2" } rfl rfl

/-! ### C5: assistant Read overwrite semantics -/

/-- C5 counterexample: for one and the same successful retrieve response
(whose description is absent), two stored states differing only in their
description field are refreshed to two different states, each keeping its
own old description — so the description field is not overwritten from the
response. -/
theorem c5_description_retained_counterexample :
    assistantResourceRead c5State1 (.ok c5Assistant) =
      .ok { id := some "asst_1", name := some "new name",
            description := some "old description", model := some "gpt-4",
            instructions := some "new instructions", enableRetrieval := some false,
            enableCodeInterpreter := some false, lastUpdated := some "t0" } ∧
    assistantResourceRead c5State2 (.ok c5Assistant) =
      .ok { id := some "asst_1", name := some "new name",
            description := some "another description", model := some "gpt-4",
            instructions := some "new instructions", enableRetrieval := some false,
            enableCodeInterpreter := some false, lastUpdated := some "t0" } ∧
    assistantResourceRead c5State1 (.ok c5Assistant) ≠
      assistantResourceRead c5State2 (.ok c5Assistant) := by
  refine ⟨rfl, rfl, by decide⟩

/-- C5 (amended): for a successful retrieve whose name and instructions are
present, Read overwrites id, name, model, instructions and both capability
flags (re-derived from tag membership) from the response; description is
overwritten only when present in the response and otherwise keeps its stored
value, and last-updated always keeps its stored value.  On a remote error
Read fails with the remote-error diagnostic and no state is written. -/
theorem c5_read_overwrite_frame (state : AssistantResourceModel) :
    (∀ (a : Assistant) (n i : String), a.name = some n → a.instructions = some i →
      assistantResourceRead state (.ok a) =
        .ok { id := stringValue a.id
              name := stringValue n
              description := match a.description with
                             | some d => stringValue d
                             | none => state.description
              model := stringValue a.model
              instructions := stringValue i
              enableRetrieval := boolValue (a.tools.contains retrievalTool)
              enableCodeInterpreter := boolValue (a.tools.contains codeInterpreterTool)
              lastUpdated := state.lastUpdated }) ∧
    (∀ e, assistantResourceRead state (.error e) =
      .err { summary := "Error Reading OpenAI assistant"
             detail := "Could not read OpenAI assistant ID " ++ valueString state.id ++ ": " ++ e }) := by
  refine ⟨?_, fun e => rfl⟩
  intro a n i hn hi
  cases hd : a.description with
  | none => simp [assistantResourceRead, hn, hi, hd, retrievalTool, codeInterpreterTool]
  | some d => simp [assistantResourceRead, hn, hi, hd, retrievalTool, codeInterpreterTool]

/-- C5 witness: the amended overwrite semantics at the concrete state and
response of the counterexample. -/
theorem c5_read_overwrite_frame_witness :
    assistantResourceRead c5State1 (.ok c5Assistant) =
      .ok { id := stringValue c5Assistant.id
            name := stringValue "new name"
            description := c5State1.description
            model := stringValue c5Assistant.model
            instructions := stringValue "new instructions"
            enableRetrieval := boolValue (c5Assistant.tools.contains retrievalTool)
            enableCodeInterpreter := boolValue (c5Assistant.tools.contains codeInterpreterTool)
            lastUpdated := c5State1.lastUpdated } :=
  (c5_read_overwrite_frame c5State1).1 c5Assistant "new name" "new instructions" rfl rfl

/-! ### C8: nil name or instructions in the retrieve response -/

/-- C8: both assistant Read and the assistant lookup dereference the
response's name and instructions pointers unconditionally: a successful
response lacking either field panics (no error outcome, no state written),
and when both are present the operation never panics. -/
theorem c8_nil_pointer_projection :
    (∀ (state : AssistantResourceModel) (a : Assistant),
      a.name = none ∨ a.instructions = none →
      assistantResourceRead state (.ok a) = .panic) ∧
    (∀ (data : AssistantDataSourceModel) (a : Assistant),
      a.name = none ∨ a.instructions = none →
      assistantDataSourceRead data (.ok a) = .panic) ∧
    (∀ (state : AssistantResourceModel) (a : Assistant) (n i : String),
      a.name = some n → a.instructions = some i →
      assistantResourceRead state (.ok a) ≠ .panic) ∧
    (∀ (data : AssistantDataSourceModel) (a : Assistant) (n i : String),
      a.name = some n → a.instructions = some i →
      assistantDataSourceRead data (.ok a) ≠ .panic) := by
  refine ⟨?_, ?_, ?_, ?_⟩
  · intro state a h
    rcases h with h | h
    · simp [assistantResourceRead, h]
    · cases hn : a.name <;> simp [assistantResourceRead, hn, h]
  · intro data a h
    rcases h with h | h
    · simp [assistantDataSourceRead, h]
    · cases hn : a.name <;> simp [assistantDataSourceRead, hn, h]
  · intro state a n i hn hi
    simp only [assistantResourceRead, hn, hi]
    intro hcontra
    exact Outcome.noConfusion hcontra
  · intro data a n i hn hi
    simp only [assistantDataSourceRead, hn, hi]
    intro hcontra
    exact Outcome.noConfusion hcontra

/-- C8 witness: a response with a nil name panics in both Read and the
lookup; a response with both pointers present does not panic. -/
theorem c8_nil_pointer_projection_witness :
    assistantResourceRead
      { id := some "asst_1", name := none, description := none, model := none,
        instructions := none, enableRetrieval := none,
        enableCodeInterpreter := none, lastUpdated := none }
      (.ok { id := "asst_1", name := none, model := "m",
             instructions := some "i", description := none, tools := [] }) = .panic ∧
    assistantDataSourceRead
      { id := some "asst_1", name := none, description := none, model := none,
        instructions := none, enableRetrieval := none, enableCodeInterpreter := none }
      (.ok { id := "asst_1", name := some "n", model := "m",
             instructions := none, description := none, tools := [] }) = .panic ∧
    assistantResourceRead
      { id := some "asst_1", name := none, description := none, model := none,
        instructions := none, enableRetrieval := none,
        enableCodeInterpreter := none, lastUpdated := none }
      (.ok { id := "asst_1", name := some "n", model := "m",
             instructions := some "i", description := none, tools := [] }) ≠ .panic :=
  ⟨c8_nil_pointer_projection.1 _ _ (Or.inl rfl),
   c8_nil_pointer_projection.2.1 _ _ (Or.inr rfl),
   c8_nil_pointer_projection.2.2.1 _ _ "n" "i" rfl rfl⟩

/-! ### C1: capability-flag projection -/

/-- C1: in both assistant Read and the assistant lookup the stored
capability flags are a pure function of tag-set membership — enable-retrieval
is true iff the retrieval tag is a member of the response's tool list and
enable-code-execution is true iff the code-interpreter tag is a member; the
whole projection is invariant under permutation of the tool list; and the
four concrete tag sets map to (true, false), (false, true), (false, false)
and (true, true) respectively. -/
theorem c1_capability_flag_projection :
    (∀ (state : AssistantResourceModel) (a : Assistant) (n i : String)
       (s : AssistantResourceModel),
      a.name = some n → a.instructions = some i →
      assistantResourceRead state (.ok a) = .ok s →
      ((s.enableRetrieval = some true ↔ retrievalTool ∈ a.tools) ∧
       (s.enableCodeInterpreter = some true ↔ codeInterpreterTool ∈ a.tools))) ∧
    (∀ (data : AssistantDataSourceModel) (a : Assistant) (n i : String)
       (d : AssistantDataSourceModel),
      a.name = some n → a.instructions = some i →
      assistantDataSourceRead data (.ok a) = .ok d →
      ((d.enableRetrieval = some true ↔ retrievalTool ∈ a.tools) ∧
       (d.enableCodeInterpreter = some true ↔ codeInterpreterTool ∈ a.tools))) ∧
    (∀ (a : Assistant) (tl2 : List AssistantTool), a.tools.Perm tl2 →
      (∀ state, assistantResourceRead state (.ok a) =
        assistantResourceRead state (.ok { a with tools := tl2 })) ∧
      (∀ data, assistantDataSourceRead data (.ok a) =
        assistantDataSourceRead data (.ok { a with tools := tl2 }))) ∧
    (c1ReadFlags [retrievalTool] = some (some true, some false) ∧
     c1ReadFlags [codeInterpreterTool] = some (some false, some true) ∧
     c1ReadFlags [] = some (some false, some false) ∧
     c1ReadFlags [retrievalTool, codeInterpreterTool] = some (some true, some true) ∧
     c1ReadFlags [codeInterpreterTool, retrievalTool] = some (some true, some true)) := by
  refine ⟨?_, ?_, ?_, rfl, rfl, rfl, rfl, rfl⟩
  · intro state a n i s hn hi hs
    cases hd : a.description with
    | none =>
        simp [assistantResourceRead, hn, hi, hd] at hs
        subst hs
        simp [boolValue, retrievalTool, codeInterpreterTool, List.contains]
    | some d =>
        simp [assistantResourceRead, hn, hi, hd] at hs
        subst hs
        simp [boolValue, retrievalTool, codeInterpreterTool, List.contains]
  · intro data a n i d hn hi hd2
    cases hd : a.description with
    | none =>
        simp [assistantDataSourceRead, hn, hi, hd] at hd2
        subst hd2
        simp [boolValue, retrievalTool, codeInterpreterTool, List.contains]
    | some d3 =>
        simp [assistantDataSourceRead, hn, hi, hd] at hd2
        subst hd2
        simp [boolValue, retrievalTool, codeInterpreterTool, List.contains]
  · intro a tl2 hperm
    constructor
    · intro state
      cases hn : a.name <;> cases hi : a.instructions <;> cases hd : a.description <;>
        simp [assistantResourceRead, hn, hi, hd, contains_eq_of_perm hperm,
          hperm.mem_iff]
    · intro data
      cases hn : a.name <;> cases hi : a.instructions <;> cases hd : a.description <;>
        simp [assistantDataSourceRead, hn, hi, hd, contains_eq_of_perm hperm,
          hperm.mem_iff]

/-- C1 witness: membership for the singleton retrieval tag set, and
order-independence at the concrete two-tag set. -/
theorem c1_capability_flag_projection_witness :
    retrievalTool ∈ (c1Assistant [retrievalTool]).tools ∧
    assistantDataSourceRead c1Blank
        (.ok (c1Assistant [retrievalTool, codeInterpreterTool])) =
      assistantDataSourceRead c1Blank
        (.ok { c1Assistant [retrievalTool, codeInterpreterTool] with
               tools := [codeInterpreterTool, retrievalTool] }) :=
  ⟨((c1_capability_flag_projection.1
      { id := none, name := none, description := none, model := none,
        instructions := none, enableRetrieval := none,
        enableCodeInterpreter := none, lastUpdated := none }
      (c1Assistant [retrievalTool]) "n" "i"
      { id := some "asst_1", name := some "n", description := none,
        model := some "m", instructions := some "i",
        enableRetrieval := some true, enableCodeInterpreter := some false,
        lastUpdated := none }
      rfl rfl rfl).1).mp rfl,
   (c1_capability_flag_projection.2.2.1
      (c1Assistant [retrievalTool, codeInterpreterTool])
      [codeInterpreterTool, retrievalTool]
      (List.Perm.swap codeInterpreterTool retrievalTool [])).2 c1Blank⟩

end OpenAIProvider
